import Mathlib

/-!
Shallow embedding of the kickit-backend REST service (Express + Mongoose) and
proofs about its authentication gate, ownership checks, validation order and
error responses.

Embedded source files:
* `src/middleware/verifyToken.js`      — the request authentication gate
* `src/models/Kick.js`                 — the kick schema (with embedded comments)
* `src/controllers/KickController.js`  — the kick / comment route handlers
* `src/controllers/AuthController.js`  — signup / signin

The document store (Mongoose/MongoDB) is modelled as an in-memory list of
documents; every store round trip a handler performs is recorded in an `ops`
trace.  bcrypt compare, bcrypt hash and JWT verification are external
collaborators and enter as function parameters.
-/

namespace Kickit

/-- JS truthiness for an optional string field of a request body:
`undefined` (`none`) and the empty string are falsy. -/
def falsy : Option String → Bool
  | none => true
  | some s => s == ""

/-- A hexadecimal character, as matched by the `[0-9a-fA-F]` character class. -/
def isHexChar (c : Char) : Bool :=
  c.isDigit || (('a' ≤ c) && (c ≤ 'f')) || (('A' ≤ c) && (c ≤ 'F'))

/-- The syntactic ObjectId check `kickId.match(/^[0-9a-fA-F]{24}$/)` used by
`KickController.js` on `:kickId` path parameters. -/
def isValidId (s : String) : Bool :=
  s.length == 24 && s.toList.all isHexChar

/-- JS `string.trim()`: strip whitespace from both ends. -/
def jsTrim (s : String) : String :=
  String.mk
    (((s.toList.dropWhile Char.isWhitespace).reverse.dropWhile
        Char.isWhitespace).reverse)

/-- The identity claim `{ username, _id }` that `AuthController.js` signs into a
token and `verifyToken.js` recovers as `decoded.payload`. -/
structure TokenPayload where
  username : String
  uid : String
  deriving DecidableEq

/-- Public (password-stripped) user representation returned by the auth routes. -/
structure PublicUser where
  uid : String
  username : String
  name : String
  email : String
  deriving DecidableEq

/-- An embedded comment subdocument (`commentSchema` in `src/models/Kick.js`). -/
structure Comment where
  cid : String
  text : String
  author : String
  deriving DecidableEq

/-- A kick document (`kickSchema` in `src/models/Kick.js`). `description`,
`location`, `completionDate` and `targetDate` may be unset; dates are kept as
opaque strings. `author` holds the account id of the owner. -/
structure Kick where
  kid : String
  title : String
  description : Option String
  location : Option String
  category : String
  status : String
  completionDate : Option String
  targetDate : Option String
  author : String
  comments : List Comment
  deriving DecidableEq

/-- `category` enumeration of `src/models/Kick.js`. -/
def categoryEnum : List String :=
  ["Travel", "Hobbies", "Sports", "Skills", "Experiences", "Other"]

/-- `status` enumeration of `src/models/Kick.js`. -/
def statusEnum : List String :=
  ["Open", "In Progress", "Completed"]

/-- Schema validity of a comment subdocument: `text` is `required`
(a Mongoose `required` string validator rejects the empty string). -/
def commentValid (c : Comment) : Bool :=
  c.text != ""

/-- Schema validity of the own paths of a kick per `src/models/Kick.js`:
`title` required, `description` required, `category` required and in its
enumeration, `status` required and in its enumeration. -/
def kickPathsValid (k : Kick) : Bool :=
  (k.title != "") &&
  (match k.description with | some d => d != "" | none => false) &&
  categoryEnum.contains k.category &&
  statusEnum.contains k.status

/-- Full-document validation run by `document.save()`: the own paths of the
kick and every embedded comment must validate. -/
def kickValid (k : Kick) : Bool :=
  kickPathsValid k && k.comments.all commentValid

/-- One store round trip performed by a handler. -/
inductive StoreOp where
  | findById (kid : String)
  | createKick
  | updateById (kid : String)
  | saveKick (kid : String)
  | deleteById (kid : String)
  | findOneUser (username : String)
  | createUser
  | compareHash
  deriving DecidableEq

/-- A JSON response body.  `jsonError` is the kick-controller
`{ "error": msg }` shape, `jsonErr` the auth-code `{ "err": msg }` shape.
`validationFailed` stands for the kick-controller
`{ "error": "Validation failed: <joined Mongoose messages>" }` 400 body, whose
exact text aggregates store-generated per-path messages. -/
inductive Body where
  | jsonError (msg : String)
  | jsonErr (msg : String)
  | validationFailed
  | kickDoc (k : Kick)
  | commentDoc (c : Comment)
  | message (msg : String)
  | authSuccess (token : TokenPayload) (user : PublicUser)
  deriving DecidableEq

/-- An HTTP response: status code plus JSON body. -/
structure Response where
  status : Nat
  body : Body
  deriving DecidableEq

/-! ## The authentication gate (`src/middleware/verifyToken.js`) -/

/-- Outcome of `jwt.verify(token, secret)`: a decoded payload, a
`JsonWebTokenError` (bad parse / bad signature), or a `TokenExpiredError`. -/
inductive VerifyOutcome where
  | ok (payl : TokenPayload)
  | invalid
  | expired
  deriving DecidableEq

/-- Result of running the gate: hand the claim to the route handler, or
terminate the request with a response. -/
inductive GateResult where
  | proceed (payl : TokenPayload)
  | reject (resp : Response)
  deriving DecidableEq

def msgNoToken : String := "No authentication token provided. Please sign in."
def msgBadAuthFormat : String := "Invalid authentication format. Please sign in again."
def msgInvalidToken : String := "Invalid authentication token. Please sign in again."
def msgExpiredToken : String := "Your session has expired. Please sign in again."

/-- JS `string.split(" ")` on a character list: split at every single space,
keeping empty pieces (so `"a  b"` gives `["a", "", "b"]` and `""` gives
`[""]`). -/
def splitSpacesAux : List Char → List Char → List (List Char)
  | [], acc => [acc.reverse]
  | c :: rest, acc =>
    if c = ' ' then acc.reverse :: splitSpacesAux rest []
    else splitSpacesAux rest (c :: acc)

/-- JS `header.split(" ")`. -/
def splitSpaces (s : String) : List String :=
  (splitSpacesAux s.toList []).map (fun l => String.mk l)

/-- `req.headers.authorization.split(" ")[1]`. -/
def extractToken (header : String) : Option String :=
  (splitSpaces header)[1]?

/-- The part of `src/middleware/verifyToken.js` after the header-presence
check (lines 11-33): `split(" ")[1]`, the falsy-token check, then
`jwt.verify` with its error mapping. -/
def verifyTokenPresent (verify : String → VerifyOutcome) (h : String) :
    GateResult :=
  match extractToken h with
  | none => .reject ⟨401, .jsonErr msgBadAuthFormat⟩
  | some t =>
    if t == "" then .reject ⟨401, .jsonErr msgBadAuthFormat⟩
    else
      match verify t with
      | .ok p => .proceed p
      | .invalid => .reject ⟨401, .jsonErr msgInvalidToken⟩
      | .expired => .reject ⟨401, .jsonErr msgExpiredToken⟩

/-- The `verifyToken` middleware.  `verify` models `jwt.verify` with the
process-wide secret already applied.  Mirrors `src/middleware/verifyToken.js`:
the first check is `!req.headers.authorization` — JS falsiness — so an absent
header *and* a present empty-string header both get the missing-token 401;
then a falsy second space-separated part gets the malformed-format 401;
otherwise the token is verified and the decoded payload attached to the
request. -/
def verifyToken (verify : String → VerifyOutcome) (header : Option String) :
    GateResult :=
  if falsy header then .reject ⟨401, .jsonErr msgNoToken⟩
  else verifyTokenPresent verify (header.getD "")

/-- Spec-side predicate, from the words of the spec: the `Authorization` header has
"exactly the two-part form `Bearer <token>`". -/
def specBearerForm (header : String) : Bool :=
  match splitSpaces header with
  | [scheme, t] => scheme == "Bearer" && t != ""
  | _ => false

/-! ## The kick routes (`src/controllers/KickController.js`)

Every handler below runs behind `verifyToken`; `userId` is the `_id` of the
authenticated caller (`req.user._id`).  The store is the list of kick
documents; each handler returns the response, the store afterwards, and the
trace of store round trips it performed. -/

/-- The request body of POST `/kicks` and PUT `/kicks/:kickId`: the six fields
the handlers destructure, plus the `author` field a client may also send
(which the handlers never read). -/
structure KickBody where
  title : Option String
  description : Option String
  category : Option String
  location : Option String
  targetDate : Option String
  status : Option String
  author : Option String
  deriving DecidableEq

/-- The empty request body (`req.body || {}` with no fields). -/
def emptyKickBody : KickBody :=
  ⟨none, none, none, none, none, none, none⟩

/-- Result of one kick-route handler. -/
structure KickResult where
  resp : Response
  store : List Kick
  ops : List StoreOp
  deriving DecidableEq

/-- `Kick.findById(kickId)` on the store. -/
def findKick (store : List Kick) (kid : String) : Option Kick :=
  store.find? (fun k => k.kid == kid)

/-- `kick.comments.id(commentId)`. -/
def findComment (k : Kick) (cid : String) : Option Comment :=
  k.comments.find? (fun c => c.cid == cid)

/-- Replace the kick with id `kid` by `k2`. -/
def storeReplace (store : List Kick) (kid : String) (k2 : Kick) : List Kick :=
  store.map (fun k => if k.kid == kid then k2 else k)

/-- `Kick.findByIdAndDelete(kickId)`. -/
def storeRemove (store : List Kick) (kid : String) : List Kick :=
  store.filter (fun k => k.kid != kid)

def msgInvalidKickId : String := "Invalid kick ID format."
def msgKickNotFound : String := "Kick not found. It may have been deleted."
def msgKickNotFoundDeleted : String := "Kick not found. It may have already been deleted."
def msgKickNotFoundComment : String := "Kick not found. Cannot add comment."
def msgKickNotFoundDelComment : String := "Kick not found. Cannot delete comment."
def msgKickNotFoundUpdComment : String := "Kick not found. Cannot update comment."
def msgKickNotFoundStatus : String := "Kick not found. Cannot update status."
def msgDeleteForbidden : String := "You do not have permission to delete this kick."
def msgEditForbidden : String := "You do not have permission to edit this kick."
def msgStatusForbidden : String := "You do not have permission to update this kick\x27s status."
def msgCommentDeleteForbidden : String := "You can only delete your own comments."
def msgCommentEditForbidden : String := "You can only edit your own comments."
def msgNoUpdateFields : String :=
  "Please provide at least one field to update (title, description, category, location, targetDate, or status)."
def msgCommentTextRequired : String :=
  "Comment text is required. Please write a comment before posting."
def msgCommentTextRequiredPut : String :=
  "Comment text is required. Please provide text for your comment."
def msgStatusRequired : String :=
  "Status is required. Please provide a valid status (Open or Completed)."
def msgInvalidStatusValue : String :=
  "Invalid status value. Status must be \x27Open\x27 or \x27Completed\x27."
def msgCreateFailed : String := "Failed to create kick. Please try again."
def msgAddCommentFailed : String := "Failed to add comment. Please try again."
def msgDeleteCommentFailed : String := "Failed to delete comment. Please try again."
def msgUpdateCommentFailed : String := "Failed to update comment. Please try again."
def msgStatusUpdateFailed : String := "Failed to update kick status. Please try again."

/-- The `Missing required fields: ...` message of POST `/kicks`. -/
def postKickMissingMsg (b : KickBody) : String :=
  "Missing required fields: " ++
    String.intercalate ", "
      ((if falsy b.title then ["title"] else []) ++
       (if falsy b.category then ["category"] else [])) ++
    ". Please provide a title and category for your kick."

/-- POST `/kicks` (lines 9-52).  `newId` is the ObjectId the store assigns to
the created document.  The handler requires truthy `title` and `category`,
builds `kickData` with `author := req.user._id`, copies the optional fields
only when truthy, and lets `Kick.create` apply the `status` default and run
schema validation (`ValidationError` → 400). -/
def postKickData (userId newId : String) (b : KickBody) : Kick :=
  { kid := newId
    title := b.title.getD ""
    description := if falsy b.description then none else b.description
    location := if falsy b.location then none else b.location
    category := b.category.getD ""
    status := if falsy b.status then "Open" else b.status.getD ""
    completionDate := none
    targetDate := if falsy b.targetDate then none else b.targetDate
    author := userId
    comments := [] }

def postKick (userId newId : String) (b : KickBody) (store : List Kick) :
    KickResult :=
  if falsy b.title || falsy b.category then
    ⟨⟨400, .jsonError (postKickMissingMsg b)⟩, store, []⟩
  else
    if kickValid (postKickData userId newId b) then
      ⟨⟨201, .kickDoc (postKickData userId newId b)⟩,
        store ++ [postKickData userId newId b], [.createKick]⟩
    else
      ⟨⟨400, .validationFailed⟩, store, [.createKick]⟩

/-- GET `/kicks/:kickId` (lines 72-98): id-format check, then `findById`
(population of `author` and `comments.author` does not change the own
fields of the document and is not modelled). -/
def getKick (kid : String) (store : List Kick) : KickResult :=
  if !isValidId kid then
    ⟨⟨400, .jsonError msgInvalidKickId⟩, store, []⟩
  else
    match findKick store kid with
    | none => ⟨⟨404, .jsonError msgKickNotFound⟩, store, [.findById kid]⟩
    | some k => ⟨⟨200, .kickDoc k⟩, store, [.findById kid]⟩

/-- DELETE `/kicks/:kickId` (lines 101-130): id-format check, `findById`,
404 when absent, 403 when the caller is not the author, otherwise
`findByIdAndDelete`. -/
def deleteKick (userId kid : String) (store : List Kick) : KickResult :=
  if !isValidId kid then
    ⟨⟨400, .jsonError msgInvalidKickId⟩, store, []⟩
  else
    match findKick store kid with
    | none => ⟨⟨404, .jsonError msgKickNotFoundDeleted⟩, store, [.findById kid]⟩
    | some k =>
      if k.author != userId then
        ⟨⟨403, .jsonError msgDeleteForbidden⟩, store, [.findById kid]⟩
      else
        ⟨⟨200, .message "Kick deleted successfully"⟩, storeRemove store kid,
          [.findById kid, .deleteById kid]⟩

/-- The PUT `/kicks/:kickId` check that every destructured field is
`=== undefined` (an empty string counts as supplied). -/
def noFieldSupplied (b : KickBody) : Bool :=
  b.title == none && b.description == none && b.category == none &&
  b.location == none && b.targetDate == none && b.status == none

/-- `runValidators: true` on `findByIdAndUpdate`: Mongoose re-runs the path
validators of exactly the supplied paths. -/
def updateFieldsValid (b : KickBody) : Bool :=
  (match b.title with | some t => t != "" | none => true) &&
  (match b.description with | some d => d != "" | none => true) &&
  (match b.category with | some c => categoryEnum.contains c | none => true) &&
  (match b.status with | some s => statusEnum.contains s | none => true)

/-- Overwrite exactly the supplied fields of a stored kick
(`updateFields` of PUT `/kicks/:kickId`). -/
def applyUpdate (k : Kick) (b : KickBody) : Kick :=
  { k with
    title := b.title.getD k.title
    description := match b.description with | some d => some d | none => k.description
    category := b.category.getD k.category
    location := match b.location with | some l => some l | none => k.location
    targetDate := match b.targetDate with | some d => some d | none => k.targetDate
    status := b.status.getD k.status }

/-- PUT `/kicks/:kickId` (lines 133-200): id-format check, at-least-one-field
check, `findById`, 404, 403 when the caller is not the author, then
`findByIdAndUpdate` with `runValidators` (`ValidationError` → 400). -/
def putKick (userId kid : String) (b : KickBody) (store : List Kick) :
    KickResult :=
  if !isValidId kid then
    ⟨⟨400, .jsonError msgInvalidKickId⟩, store, []⟩
  else if noFieldSupplied b then
    ⟨⟨400, .jsonError msgNoUpdateFields⟩, store, []⟩
  else
    match findKick store kid with
    | none => ⟨⟨404, .jsonError msgKickNotFound⟩, store, [.findById kid]⟩
    | some k =>
      if k.author != userId then
        ⟨⟨403, .jsonError msgEditForbidden⟩, store, [.findById kid]⟩
      else if updateFieldsValid b then
        let k2 := applyUpdate k b
        ⟨⟨200, .kickDoc k2⟩, storeReplace store kid k2,
          [.findById kid, .updateById kid]⟩
      else
        ⟨⟨400, .validationFailed⟩, store, [.findById kid, .updateById kid]⟩

/-- POST `/kicks/:kickId/comments` (lines 203-239): id-format check, text
presence check (`!text || !text.trim()`), `findById`, 404, then push the
trimmed comment authored by the caller and `kick.save()` (whose validation
failure is answered by the generic 500 of the catch of this handler). -/
def postComment (userId newCid kid : String) (text : Option String)
    (store : List Kick) : KickResult :=
  if !isValidId kid then
    ⟨⟨400, .jsonError msgInvalidKickId⟩, store, []⟩
  else if falsy text || jsTrim (text.getD "") == "" then
    ⟨⟨400, .jsonError msgCommentTextRequired⟩, store, []⟩
  else
    match findKick store kid with
    | none => ⟨⟨404, .jsonError msgKickNotFoundComment⟩, store, [.findById kid]⟩
    | some k =>
      let c : Comment := ⟨newCid, jsTrim (text.getD ""), userId⟩
      let k2 := { k with comments := k.comments ++ [c] }
      if kickValid k2 then
        ⟨⟨201, .commentDoc c⟩, storeReplace store kid k2,
          [.findById kid, .saveKick kid]⟩
      else
        ⟨⟨500, .jsonError msgAddCommentFailed⟩, store,
          [.findById kid, .saveKick kid]⟩

/-- DELETE `/kicks/:kickId/comments/:commentId` (lines 242-280): id-format
check on `:kickId` only, `findById`, 404, `comments.id(commentId)`, 404,
403 when the caller is not the author of the comment, then `pull` and
`kick.save()`. -/
def deleteComment (userId kid cid : String) (store : List Kick) : KickResult :=
  if !isValidId kid then
    ⟨⟨400, .jsonError msgInvalidKickId⟩, store, []⟩
  else
    match findKick store kid with
    | none =>
      ⟨⟨404, .jsonError msgKickNotFoundDelComment⟩, store, [.findById kid]⟩
    | some k =>
      match findComment k cid with
      | none =>
        ⟨⟨404, .jsonError "Comment not found. It may have already been deleted."⟩,
          store, [.findById kid]⟩
      | some c =>
        if c.author != userId then
          ⟨⟨403, .jsonError msgCommentDeleteForbidden⟩, store, [.findById kid]⟩
        else
          let k2 := { k with comments := k.comments.filter (fun x => x.cid != cid) }
          if kickValid k2 then
            ⟨⟨200, .message "Comment deleted successfully"⟩,
              storeReplace store kid k2, [.findById kid, .saveKick kid]⟩
          else
            ⟨⟨500, .jsonError msgDeleteCommentFailed⟩, store,
              [.findById kid, .saveKick kid]⟩

/-- PUT `/kicks/:kickId/comments/:commentId` (lines 283-329): id-format check
on `:kickId` only, text presence check, `findById`, 404, comment lookup, 404,
403 when the caller is not the author of the comment, then the text is replaced by
its trimmed value and the parent saved. -/
def putComment (userId kid cid : String) (text : Option String)
    (store : List Kick) : KickResult :=
  if !isValidId kid then
    ⟨⟨400, .jsonError msgInvalidKickId⟩, store, []⟩
  else if falsy text || jsTrim (text.getD "") == "" then
    ⟨⟨400, .jsonError msgCommentTextRequiredPut⟩, store, []⟩
  else
    match findKick store kid with
    | none =>
      ⟨⟨404, .jsonError msgKickNotFoundUpdComment⟩, store, [.findById kid]⟩
    | some k =>
      match findComment k cid with
      | none =>
        ⟨⟨404, .jsonError "Comment not found. It may have been deleted."⟩,
          store, [.findById kid]⟩
      | some c =>
        if c.author != userId then
          ⟨⟨403, .jsonError msgCommentEditForbidden⟩, store, [.findById kid]⟩
        else
          let c2 := { c with text := jsTrim (text.getD "") }
          let k2 := { k with
            comments := k.comments.map (fun x => if x.cid == cid then c2 else x) }
          if kickValid k2 then
            ⟨⟨200, .commentDoc c2⟩, storeReplace store kid k2,
              [.findById kid, .saveKick kid]⟩
          else
            ⟨⟨500, .jsonError msgUpdateCommentFailed⟩, store,
              [.findById kid, .saveKick kid]⟩

/-- PATCH `/kicks/:kickId/status` (lines 332-378): id-format check, status
presence check, `findById`, 404, 403 when the caller is not the author, then
`kick.status = status` and `kick.save()`; a save-time `ValidationError` is
answered with the 400 invalid-status message. -/
def patchStatus (userId kid : String) (status : Option String)
    (store : List Kick) : KickResult :=
  if !isValidId kid then
    ⟨⟨400, .jsonError msgInvalidKickId⟩, store, []⟩
  else if falsy status then
    ⟨⟨400, .jsonError msgStatusRequired⟩, store, []⟩
  else
    match findKick store kid with
    | none => ⟨⟨404, .jsonError msgKickNotFoundStatus⟩, store, [.findById kid]⟩
    | some k =>
      if k.author != userId then
        ⟨⟨403, .jsonError msgStatusForbidden⟩, store, [.findById kid]⟩
      else
        let k2 := { k with status := status.getD "" }
        if kickValid k2 then
          ⟨⟨200, .kickDoc k2⟩, storeReplace store kid k2,
            [.findById kid, .saveKick kid]⟩
        else
          ⟨⟨400, .jsonError msgInvalidStatusValue⟩, store,
            [.findById kid, .saveKick kid]⟩

/-! ## The auth routes (`src/controllers/AuthController.js`)

The `User` model file is not under `src/`; its shape is taken from the
accounts the controller reads and writes (`username`, `name`, `email`,
`hashedPassword`, `_id`).  bcrypt enters as parameters: `hash` for
`bcrypt.hashSync(password, saltRounds)` and `compare` for
`bcrypt.compareSync(password, user.hashedPassword)`. -/

/-- A stored account document. -/
structure User where
  uid : String
  username : String
  name : String
  email : String
  hashedPassword : String
  deriving DecidableEq

/-- Result of one auth-route handler. -/
structure AuthResult where
  resp : Response
  db : List User
  ops : List StoreOp
  deriving DecidableEq

/-- `User.findOne({ username })`. -/
def findUser (db : List User) (username : String) : Option User :=
  db.find? (fun u => u.username == username)

def msgUsernameTaken : String :=
  "This username is already taken. Please choose a different username."
def msgInvalidCredentials : String :=
  "Invalid username or password. Please check your credentials and try again."
def msgSigninMissing : String :=
  "Please provide both username and password to sign in."

/-- Modelled from the spec: the `User` schema (absent from `src/`) declares
`email` unique, so a store-level duplicate-key failure on `email` is mapped by
the signup catch handler (`err.code === 11000`) to this 409 message. -/
def msgEmailTaken : String :=
  "This email is already registered. Please use a different email or sign in."

/-- The `Missing required fields: ...` message of POST `/auth/signup`. -/
def signupMissingMsg (username password name email : Option String) : String :=
  "Missing required fields: " ++
    String.intercalate ", "
      ((if falsy username then ["username"] else []) ++
       (if falsy password then ["password"] else []) ++
       (if falsy name then ["name"] else []) ++
       (if falsy email then ["email"] else [])) ++
    ". Please fill in all required information."

/-- POST `/auth/signup` (lines 11-83): presence check on the four fields,
`findOne` on the username (409 when taken), then `User.create` — whose
store-level unique constraint on `email` is modelled directly and mapped to
the duplicate-key 409 — and a token signed over `{ username, _id }`. -/
def signup (db : List User) (hash : String → String) (newId : String)
    (username password name email : Option String) : AuthResult :=
  if falsy username || falsy password || falsy name || falsy email then
    ⟨⟨400, .jsonErr (signupMissingMsg username password name email)⟩, db, []⟩
  else
    match findUser db (username.getD "") with
    | some _ =>
      ⟨⟨409, .jsonErr msgUsernameTaken⟩, db, [.findOneUser (username.getD "")]⟩
    | none =>
      if db.any (fun u => u.email == email.getD "") then
        ⟨⟨409, .jsonErr msgEmailTaken⟩, db,
          [.findOneUser (username.getD ""), .createUser]⟩
      else
        let u : User :=
          ⟨newId, username.getD "", name.getD "", email.getD "",
            hash (password.getD "")⟩
        ⟨⟨201, .authSuccess ⟨u.username, u.uid⟩ ⟨u.uid, u.username, u.name, u.email⟩⟩,
          db ++ [u], [.findOneUser (username.getD ""), .createUser]⟩

/-- POST `/auth/signin` (lines 86-136): presence check on both fields, then
`findOne` on the username — absent yields the same 401 body as a failed
bcrypt compare — and on a match a token signed over `{ username, _id }`. -/
def signin (db : List User) (compare : String → String → Bool)
    (username password : Option String) : AuthResult :=
  if falsy username || falsy password then
    ⟨⟨400, .jsonErr msgSigninMissing⟩, db, []⟩
  else
    match findUser db (username.getD "") with
    | none =>
      ⟨⟨401, .jsonErr msgInvalidCredentials⟩, db,
        [.findOneUser (username.getD "")]⟩
    | some u =>
      if compare (password.getD "") u.hashedPassword then
        ⟨⟨200, .authSuccess ⟨u.username, u.uid⟩ ⟨u.uid, u.username, u.name, u.email⟩⟩,
          db, [.findOneUser (username.getD ""), .compareHash]⟩
      else
        ⟨⟨401, .jsonErr msgInvalidCredentials⟩, db,
          [.findOneUser (username.getD ""), .compareHash]⟩

/-! ## Sample documents used to instantiate the theorems -/

/-- A well-formed 24-hex ObjectId for a kick. -/
def sampleKickId : String := "aaaaaaaaaaaaaaaaaaaaaaaa"

/-- A well-formed 24-hex ObjectId for a comment. -/
def sampleCommentId : String := "bbbbbbbbbbbbbbbbbbbbbbbb"

/-- A schema-valid kick owned by account `u1`. -/
def sampleKick : Kick :=
  { kid := sampleKickId
    title := "Hike the trail"
    description := some "A long hike"
    location := none
    category := "Travel"
    status := "Open"
    completionDate := none
    targetDate := none
    author := "u1"
    comments := [] }

/-- A comment on `sampleKick` authored by account `u2` (not the kick owner). -/
def sampleComment : Comment := ⟨sampleCommentId, "Nice one", "u2"⟩

/-- `sampleKick` carrying `sampleComment`. -/
def sampleKickWithComment : Kick :=
  { sampleKick with comments := [sampleComment] }

/-- A body supplying exactly one recognized update field. -/
def oneFieldBody : KickBody := { emptyKickBody with title := some "Updated title" }

/-- The round-trip body of the spec: `{title: "Learn Rock Climbing", category: "Adventure"}`. -/
def adventureBody : KickBody :=
  { emptyKickBody with title := some "Learn Rock Climbing", category := some "Adventure" }

/-- A creation body valid under the checked-in schema. -/
def guitarBody : KickBody :=
  { emptyKickBody with
      title := some "Learn Guitar"
      description := some "Practice daily"
      category := some "Skills" }

/-- A token verifier accepting exactly the token string `tok`. -/
def sampleVerify : String → VerifyOutcome :=
  fun t => if t == "tok" then .ok ⟨"alice", "u1"⟩ else .invalid

/-- An account directory holding the single account `alice`. -/
def sampleDb : List User := [⟨"i1", "alice", "Alice", "alice@example.com", "HASH"⟩]

/-- A bcrypt-compare stand-in: only the password `secret` matches the stored
hash `HASH`. -/
def sampleCompare : String → String → Bool :=
  fun p h => p == "secret" && h == "HASH"

/-- A bcrypt-hash stand-in. -/
def sampleHash : String → String := fun s => String.append "bc$" s

/-! ## Claims -/

/-- C4, counterexample: the gate does not require the `Bearer` scheme.  With a
verifier accepting `tok`, the header `Basic tok` — which is not of the
two-part `Bearer <token>` form — is admitted to resource logic instead of
being rejected 401 with the malformed-header error. -/
theorem c4_counterexample :
    verifyToken sampleVerify (some "Basic tok") = .proceed ⟨"alice", "u1"⟩ ∧
    specBearerForm "Basic tok" = false := by
  decide

/-- A header from which a second space-separated part is extracted is not the
empty string (helper for the C4 characterization). -/
theorem extractToken_ne_empty {h t : String} (he : extractToken h = some t) :
    h ≠ "" := by
  intro hh
  rw [hh, show extractToken "" = none from by decide] at he
  simp at he

/-- C4, as amended: the gate rejects a falsy header — absent, or present as
the empty string — with 401 and the missing-token error; it rejects a truthy
header whose second space-separated part is absent or empty with 401 and the
malformed-header error; otherwise it verifies that second part, proceeding
exactly on a successful verification and mapping invalid / expired tokens to
their 401 messages.  The scheme word is never inspected. -/
theorem c4_theorem :
    (∀ (verify : String → VerifyOutcome) (header : Option String),
      falsy header = true →
      verifyToken verify header = .reject ⟨401, .jsonErr msgNoToken⟩) ∧
    (∀ (verify : String → VerifyOutcome) (h : String),
      h ≠ "" → (extractToken h).getD "" = "" →
      verifyToken verify (some h) = .reject ⟨401, .jsonErr msgBadAuthFormat⟩) ∧
    (∀ (verify : String → VerifyOutcome) (h t : String) (p : TokenPayload),
      extractToken h = some t → t ≠ "" → verify t = .ok p →
      verifyToken verify (some h) = .proceed p) ∧
    (∀ (verify : String → VerifyOutcome) (h t : String),
      extractToken h = some t → t ≠ "" → verify t = .invalid →
      verifyToken verify (some h) = .reject ⟨401, .jsonErr msgInvalidToken⟩) ∧
    (∀ (verify : String → VerifyOutcome) (h t : String),
      extractToken h = some t → t ≠ "" → verify t = .expired →
      verifyToken verify (some h) = .reject ⟨401, .jsonErr msgExpiredToken⟩) ∧
    (∀ (verify : String → VerifyOutcome) (h : String) (p : TokenPayload),
      verifyToken verify (some h) = .proceed p →
      ∃ t, extractToken h = some t ∧ t ≠ "" ∧ verify t = .ok p) := by
  refine ⟨?_, ?_, ?_, ?_, ?_, ?_⟩
  · intro v hd hf
    simp [verifyToken, hf]
  · intro v h hne hg
    cases he : extractToken h with
    | none => simp [verifyToken, verifyTokenPresent, falsy, hne, he]
    | some t =>
      rw [he, Option.getD_some] at hg
      subst hg
      simp [verifyToken, verifyTokenPresent, falsy, hne, he]
  · intro v h t p he ht hv
    have hne : h ≠ "" := extractToken_ne_empty he
    simp [verifyToken, verifyTokenPresent, falsy, hne, he, ht, hv]
  · intro v h t he ht hv
    have hne : h ≠ "" := extractToken_ne_empty he
    simp [verifyToken, verifyTokenPresent, falsy, hne, he, ht, hv]
  · intro v h t he ht hv
    have hne : h ≠ "" := extractToken_ne_empty he
    simp [verifyToken, verifyTokenPresent, falsy, hne, he, ht, hv]
  · intro v h p hp
    by_cases hne : h = ""
    · rw [hne] at hp
      simp [verifyToken, falsy] at hp
    · simp only [verifyToken, falsy] at hp
      rw [if_neg (by simp [hne])] at hp
      rw [Option.getD_some] at hp
      simp only [verifyTokenPresent] at hp
      cases he : extractToken h with
      | none => rw [he] at hp; simp at hp
      | some t =>
        rw [he] at hp
        by_cases ht : t = ""
        · subst ht; simp at hp
        · refine ⟨t, rfl, ht, ?_⟩
          simp only [beq_iff_eq, ht, if_false] at hp
          cases hv : v t <;> rw [hv] at hp <;> simp_all

/-- C4 witness: concrete runs of the amended characterization, including the
present-but-empty header that takes the missing-token branch. -/
theorem c4_theorem_witness :
    verifyToken sampleVerify (some "") = .reject ⟨401, .jsonErr msgNoToken⟩ ∧
    verifyToken sampleVerify (some "Bearer tok") = .proceed ⟨"alice", "u1"⟩ ∧
    verifyToken sampleVerify (some "Bearer bad") =
      .reject ⟨401, .jsonErr msgInvalidToken⟩ ∧
    verifyToken sampleVerify (some "Bearer") =
      .reject ⟨401, .jsonErr msgBadAuthFormat⟩ :=
  ⟨c4_theorem.1 sampleVerify (some "") (by decide),
   c4_theorem.2.2.1 sampleVerify "Bearer tok" "tok" ⟨"alice", "u1"⟩
      (by decide) (by decide) (by decide),
   c4_theorem.2.2.2.1 sampleVerify "Bearer bad" "bad"
      (by decide) (by decide) (by decide),
   c4_theorem.2.1 sampleVerify "Bearer" (by decide) (by decide)⟩

/-- C1, counterexample: a PUT by a non-owner whose body supplies no
recognized field is answered 400 (the at-least-one-field check fires before
the ownership check), not 403. -/
theorem c1_counterexample :
    findKick [sampleKick] sampleKickId = some sampleKick ∧
    sampleKick.author ≠ "u2" ∧
    (putKick "u2" sampleKickId emptyKickBody [sampleKick]).resp.status = 400 := by
  decide

/-- C1, as amended: for every PUT whose body supplies at least one recognized
field and for every DELETE on an existing kick whose author differs from the
authenticated caller, the handler answers 403 and the store — kick, its
fields and its comment list — is unchanged. -/
theorem c1_theorem (store : List Kick) (uid kid : String) (b : KickBody)
    (k : Kick) (hid : isValidId kid = true) (hfind : findKick store kid = some k)
    (hown : k.author ≠ uid) (hfields : noFieldSupplied b = false) :
    ((putKick uid kid b store).resp.status = 403 ∧
      (putKick uid kid b store).store = store) ∧
    ((deleteKick uid kid store).resp.status = 403 ∧
      (deleteKick uid kid store).store = store) := by
  simp [putKick, deleteKick, hid, hfind, hown, hfields, bne_iff_ne]

/-- C1 witness: the owner is `u1`, the caller `u2`, the body supplies a title. -/
theorem c1_theorem_witness :
    isValidId sampleKickId = true ∧
    findKick [sampleKick] sampleKickId = some sampleKick ∧
    sampleKick.author ≠ "u2" ∧
    noFieldSupplied oneFieldBody = false ∧
    (((putKick "u2" sampleKickId oneFieldBody [sampleKick]).resp.status = 403 ∧
      (putKick "u2" sampleKickId oneFieldBody [sampleKick]).store = [sampleKick]) ∧
     ((deleteKick "u2" sampleKickId [sampleKick]).resp.status = 403 ∧
      (deleteKick "u2" sampleKickId [sampleKick]).store = [sampleKick])) :=
  ⟨by decide, by decide, by decide, by decide,
   c1_theorem [sampleKick] "u2" sampleKickId oneFieldBody sampleKick
     (by decide) (by decide) (by decide) (by decide)⟩

/-- C2: the `author` of a successfully created kick is always the id of the
authenticated caller, and the handler outcome does not depend on any `author` value in
the request body. -/
theorem c2_theorem :
    (∀ (uid newId : String) (b : KickBody) (store : List Kick) (k : Kick),
      (postKick uid newId b store).resp = ⟨201, .kickDoc k⟩ → k.author = uid) ∧
    (∀ (uid newId : String) (b : KickBody) (store : List Kick) (a : Option String),
      postKick uid newId { b with author := a } store = postKick uid newId b store) := by
  constructor
  · intro uid newId b store k h
    simp only [postKick] at h
    split at h
    · simp at h
    · split at h
      · rw [show (⟨⟨201, .kickDoc (postKickData uid newId b)⟩,
            store ++ [postKickData uid newId b], [.createKick]⟩ : KickResult).resp
            = ⟨201, .kickDoc (postKickData uid newId b)⟩ from rfl] at h
        have : postKickData uid newId b = k := by
          have h2 := congrArg Response.body h
          simpa using h2
        rw [← this]
        rfl
      · simp at h
  · intro uid newId b store a
    rfl

/-- C2 witness: the body carries `author := some "evil"`, yet the created
kick is authored by the caller `u1`, and overwriting the `author` of the body
leaves the handler outcome unchanged. -/
theorem c2_theorem_witness :
    (postKick "u1" sampleKickId { guitarBody with author := some "evil" } []).resp
      = ⟨201, .kickDoc (postKickData "u1" sampleKickId
          { guitarBody with author := some "evil" })⟩ ∧
    (postKickData "u1" sampleKickId
        { guitarBody with author := some "evil" }).author = "u1" ∧
    postKick "u1" sampleKickId { guitarBody with author := some "evil" } []
      = postKick "u1" sampleKickId guitarBody [] :=
  ⟨by decide,
   c2_theorem.1 "u1" sampleKickId { guitarBody with author := some "evil" } []
     (postKickData "u1" sampleKickId { guitarBody with author := some "evil" })
     (by decide),
   c2_theorem.2 "u1" sampleKickId guitarBody [] (some "evil")⟩

/-- C3, counterexample: a comment PUT by a caller who is not that
author but whose body carries no text is answered 400 (the text presence
check fires before the authorship check), not 403. -/
theorem c3_counterexample :
    findKick [sampleKickWithComment] sampleKickId = some sampleKickWithComment ∧
    findComment sampleKickWithComment sampleCommentId = some sampleComment ∧
    sampleComment.author ≠ "u1" ∧
    (putComment "u1" sampleKickId sampleCommentId none
        [sampleKickWithComment]).resp.status = 400 := by
  decide

/-- C3, as amended: for every comment PUT whose body supplies text that is
nonempty after trimming, and for every comment DELETE, on an existing kick and
comment whose author differs from the authenticated caller — including the
owner of the parent kick — the handler answers 403 and the store is
unchanged. -/
theorem c3_theorem (store : List Kick) (uid kid cid : String)
    (txt : Option String) (k : Kick) (c : Comment)
    (hid : isValidId kid = true) (hfind : findKick store kid = some k)
    (hc : findComment k cid = some c) (hauth : c.author ≠ uid)
    (htxt : (falsy txt || jsTrim (txt.getD "") == "") = false) :
    ((putComment uid kid cid txt store).resp.status = 403 ∧
      (putComment uid kid cid txt store).store = store) ∧
    ((deleteComment uid kid cid store).resp.status = 403 ∧
      (deleteComment uid kid cid store).store = store) := by
  simp [putComment, deleteComment, hid, hfind, hc, hauth, htxt, bne_iff_ne]

/-- C3 witness: the caller `u1` owns the parent kick, yet editing or deleting
the `u2` comment is refused with 403. -/
theorem c3_theorem_witness :
    sampleKickWithComment.author = "u1" ∧
    findComment sampleKickWithComment sampleCommentId = some sampleComment ∧
    sampleComment.author ≠ "u1" ∧
    (((putComment "u1" sampleKickId sampleCommentId (some "edit")
        [sampleKickWithComment]).resp.status = 403 ∧
      (putComment "u1" sampleKickId sampleCommentId (some "edit")
        [sampleKickWithComment]).store = [sampleKickWithComment]) ∧
     ((deleteComment "u1" sampleKickId sampleCommentId
        [sampleKickWithComment]).resp.status = 403 ∧
      (deleteComment "u1" sampleKickId sampleCommentId
        [sampleKickWithComment]).store = [sampleKickWithComment])) :=
  ⟨by decide, by decide, by decide,
   c3_theorem [sampleKickWithComment] "u1" sampleKickId sampleCommentId
     (some "edit") sampleKickWithComment sampleComment
     (by decide) (by decide) (by decide) (by decide) (by decide)⟩

/-- C5: the claimed round trip fails on the checked-in schema.  POST `/kicks`
with body exactly `{title: "Learn Rock Climbing", category: "Adventure"}` is
rejected 400 by creation-time validation — `Adventure` is not in the
`category` enumeration of `src/models/Kick.js` and `description` is declared
`required` there — so no kick is stored and nothing can be fetched back. -/
theorem c5_theorem :
    (postKick "u1" sampleKickId adventureBody []).resp.status = 400 ∧
    (postKick "u1" sampleKickId adventureBody []).store = [] ∧
    categoryEnum.contains "Adventure" = false ∧
    (getKick sampleKickId (postKick "u1" sampleKickId adventureBody []).store).resp.status
      = 404 := by
  decide

/-- C6: the checked-in `status` enumeration admits `In Progress`.  An owner
PATCH `/kicks/:kickId/status` with `{status: "In Progress"}` succeeds with 200
and stores a status outside `{"Open", "Completed"}`, contradicting the
own 400 message of the handler, which names only those two values. -/
theorem c6_theorem :
    (patchStatus "u1" sampleKickId (some "In Progress") [sampleKick]).resp.status
      = 200 ∧
    findKick (patchStatus "u1" sampleKickId (some "In Progress")
        [sampleKick]).store sampleKickId
      = some { sampleKick with status := "In Progress" } ∧
    (["Open", "Completed"].contains "In Progress") = false ∧
    statusEnum.contains "In Progress" = true := by
  decide

/-- C7, counterexample: `:commentId` is never format-checked.  A DELETE with
the malformed comment id `zzz` on an existing kick is answered 404
(comment not found) — not 400 — and only after a store round trip
(`Kick.findById`) has been performed. -/
theorem c7_counterexample :
    isValidId "zzz" = false ∧
    (deleteComment "u2" sampleKickId "zzz" [sampleKickWithComment]).resp.status
      = 404 ∧
    (deleteComment "u2" sampleKickId "zzz" [sampleKickWithComment]).ops
      = [.findById sampleKickId] := by
  decide

/-- C7, as amended: the 24-hex format gate holds for the `:kickId` parameter
of every kick route: a malformed `:kickId` yields 400 with the invalid-id
message, an unchanged store, and an empty trace of store operations.
(`:commentId` parameters are not format-checked; a malformed one is merely
not found among the comments of the parent.) -/
theorem c7_theorem (uid newCid kid cid : String) (b : KickBody)
    (txt stat : Option String) (store : List Kick)
    (hid : isValidId kid = false) :
    getKick kid store = ⟨⟨400, .jsonError msgInvalidKickId⟩, store, []⟩ ∧
    deleteKick uid kid store = ⟨⟨400, .jsonError msgInvalidKickId⟩, store, []⟩ ∧
    putKick uid kid b store = ⟨⟨400, .jsonError msgInvalidKickId⟩, store, []⟩ ∧
    postComment uid newCid kid txt store
      = ⟨⟨400, .jsonError msgInvalidKickId⟩, store, []⟩ ∧
    deleteComment uid kid cid store
      = ⟨⟨400, .jsonError msgInvalidKickId⟩, store, []⟩ ∧
    putComment uid kid cid txt store
      = ⟨⟨400, .jsonError msgInvalidKickId⟩, store, []⟩ ∧
    patchStatus uid kid stat store
      = ⟨⟨400, .jsonError msgInvalidKickId⟩, store, []⟩ := by
  simp [getKick, deleteKick, putKick, postComment, deleteComment, putComment,
    patchStatus, hid]

/-- C7 witness: the malformed kick id `not-a-hex-id` is refused by every kick
route before any store operation. -/
theorem c7_theorem_witness :
    isValidId "not-a-hex-id" = false ∧
    (getKick "not-a-hex-id" [sampleKick]
      = ⟨⟨400, .jsonError msgInvalidKickId⟩, [sampleKick], []⟩ ∧
     deleteKick "u1" "not-a-hex-id" [sampleKick]
      = ⟨⟨400, .jsonError msgInvalidKickId⟩, [sampleKick], []⟩ ∧
     putKick "u1" "not-a-hex-id" oneFieldBody [sampleKick]
      = ⟨⟨400, .jsonError msgInvalidKickId⟩, [sampleKick], []⟩ ∧
     postComment "u1" sampleCommentId "not-a-hex-id" (some "hey") [sampleKick]
      = ⟨⟨400, .jsonError msgInvalidKickId⟩, [sampleKick], []⟩ ∧
     deleteComment "u1" "not-a-hex-id" sampleCommentId [sampleKick]
      = ⟨⟨400, .jsonError msgInvalidKickId⟩, [sampleKick], []⟩ ∧
     putComment "u1" "not-a-hex-id" sampleCommentId (some "hey") [sampleKick]
      = ⟨⟨400, .jsonError msgInvalidKickId⟩, [sampleKick], []⟩ ∧
     patchStatus "u1" "not-a-hex-id" (some "Completed") [sampleKick]
      = ⟨⟨400, .jsonError msgInvalidKickId⟩, [sampleKick], []⟩) :=
  ⟨by decide,
   c7_theorem "u1" sampleCommentId "not-a-hex-id" sampleCommentId oneFieldBody
     (some "hey") (some "Completed") [sampleKick] (by decide)⟩

/-- C8, counterexample: the empty string is a password that does not match
the stored hash, yet signing in as the registered `alice` with it yields 400
(missing fields), while signing in as the unregistered `bob` with a nonempty
password yields 401 — so the two responses are not identical for every pair of
passwords. -/
theorem c8_counterexample :
    sampleCompare "" "HASH" = false ∧
    findUser sampleDb "alice" = some ⟨"i1", "alice", "Alice", "alice@example.com", "HASH"⟩ ∧
    findUser sampleDb "bob" = none ∧
    (signin sampleDb sampleCompare (some "alice") (some "")).resp
      ≠ (signin sampleDb sampleCompare (some "bob") (some "x")).resp := by
  decide

/-- C8, as amended: when both sign-in requests supply a nonempty username and
a nonempty password, a registered handle with a non-matching password and an
unregistered handle receive the identical response — the same 401 status with
the same invalid-credentials body — so the two failure causes are
indistinguishable to the client. -/
theorem c8_theorem (db : List User) (compare : String → String → Bool)
    (h p h2 p2 : String) (u : User)
    (hh : h ≠ "") (hp : p ≠ "") (hh2 : h2 ≠ "") (hp2 : p2 ≠ "")
    (hfind : findUser db h = some u)
    (hcmp : compare p u.hashedPassword = false)
    (hmiss : findUser db h2 = none) :
    (signin db compare (some h) (some p)).resp
      = (signin db compare (some h2) (some p2)).resp ∧
    (signin db compare (some h) (some p)).resp
      = ⟨401, .jsonErr msgInvalidCredentials⟩ := by
  simp [signin, falsy, hh, hp, hh2, hp2, hfind, hcmp, hmiss]

/-- C8 witness: wrong password for `alice` versus the unregistered `bob`. -/
theorem c8_theorem_witness :
    sampleCompare "wrong" "HASH" = false ∧
    findUser sampleDb "bob" = none ∧
    ((signin sampleDb sampleCompare (some "alice") (some "wrong")).resp
       = (signin sampleDb sampleCompare (some "bob") (some "x")).resp ∧
     (signin sampleDb sampleCompare (some "alice") (some "wrong")).resp
       = ⟨401, .jsonErr msgInvalidCredentials⟩) :=
  ⟨by decide, by decide,
   c8_theorem sampleDb sampleCompare "alice" "wrong" "bob" "x"
     ⟨"i1", "alice", "Alice", "alice@example.com", "HASH"⟩
     (by decide) (by decide) (by decide) (by decide) (by decide) (by decide)
     (by decide)⟩

/-- C9, counterexample: a signup whose username is already taken but whose
body is missing `name` and `email` is answered 400 by the presence check, not
409. -/
theorem c9_counterexample :
    (findUser sampleDb "alice").isSome = true ∧
    (signup sampleDb sampleHash "i2" (some "alice") (some "pw") none none).resp.status
      = 400 ∧
    (signup sampleDb sampleHash "i2" (some "alice") (some "pw") none none).resp.status
      ≠ 409 := by
  decide

/-- C9, as amended: for every signup that supplies all four required fields
and whose username equals the handle of a stored account, the response is 409 with
the username-taken body, the account store is unchanged, and no token is
issued (the body is an error, not a token response). -/
theorem c9_theorem (db : List User) (hash : String → String) (newId : String)
    (un pw nm em : Option String) (u : User)
    (hun : falsy un = false) (hpw : falsy pw = false)
    (hnm : falsy nm = false) (hem : falsy em = false)
    (hfind : findUser db (un.getD "") = some u) :
    (signup db hash newId un pw nm em).resp = ⟨409, .jsonErr msgUsernameTaken⟩ ∧
    (signup db hash newId un pw nm em).db = db := by
  simp [signup, hun, hpw, hnm, hem, hfind]

/-- C9 witness: a fully populated signup for the taken handle `alice`. -/
theorem c9_theorem_witness :
    falsy (some "alice") = false ∧
    findUser sampleDb "alice" = some ⟨"i1", "alice", "Alice", "alice@example.com", "HASH"⟩ ∧
    ((signup sampleDb sampleHash "i2" (some "alice") (some "pw") (some "Al")
        (some "al@example.com")).resp = ⟨409, .jsonErr msgUsernameTaken⟩ ∧
     (signup sampleDb sampleHash "i2" (some "alice") (some "pw") (some "Al")
        (some "al@example.com")).db = sampleDb) :=
  ⟨by decide, by decide,
   c9_theorem sampleDb sampleHash "i2" (some "alice") (some "pw") (some "Al")
     (some "al@example.com")
     ⟨"i1", "alice", "Alice", "alice@example.com", "HASH"⟩
     (by decide) (by decide) (by decide) (by decide) (by decide)⟩

/-- C10: a sign-in whose username or password field is absent or the empty
string — JS falsiness treats both as missing — is answered 400 with the
missing-fields body, not 401, with the account store untouched and an empty
trace of store operations: no account lookup and no password comparison is
performed. -/
theorem c10_theorem (db : List User) (compare : String → String → Bool)
    (un pw : Option String) (hfalsy : (falsy un || falsy pw) = true) :
    signin db compare un pw = ⟨⟨400, .jsonErr msgSigninMissing⟩, db, []⟩ := by
  simp only [signin, hfalsy, if_true]

/-- C10 witness: a present username with an empty-string password, and an
empty-string username with a present password. -/
theorem c10_theorem_witness :
    signin sampleDb sampleCompare (some "alice") (some "")
      = ⟨⟨400, .jsonErr msgSigninMissing⟩, sampleDb, []⟩ ∧
    signin sampleDb sampleCompare (some "") (some "pw")
      = ⟨⟨400, .jsonErr msgSigninMissing⟩, sampleDb, []⟩ :=
  ⟨c10_theorem sampleDb sampleCompare (some "alice") (some "") (by decide),
   c10_theorem sampleDb sampleCompare (some "") (some "pw") (by decide)⟩

end Kickit
